import Mathlib

/-!
Verification of the CarScene data-access layer.

The repository persists Users, Posts, Videos, Locations, Likes, Comments,
Follows and Saves in a relational store and mutates them through the
`DatabaseStorage` class (`src/server/utils/adminCheck.ts`).  This file is a
shallow embedding of that layer: the store is a record of row lists, every
storage method becomes a pure function on the store, and the enrichment
operations that `throw` in TypeScript return `Except String _`.

Identifiers are opaque unique strings and row timestamps are server-assigned
creation times; the store carries a fresh-id counter and a logical clock to
generate them, mirroring the database defaults.  Optional columns are
`Option`; a JavaScript object field that a code path never sets (such as
`isSaved` on `getPostWithDetails` results) is modelled as `Option Bool`
with `none` standing for the absent/undefined field.
-/

/-- Row of the `users` table. -/
structure User where
  id : String
  username : String
  email : String
  avatar : Option String
  createdAt : Nat
  deriving Repr, DecidableEq

/-- Row of the `posts` table.  `locationId` is the optional location tag the
storage layer joins on. -/
structure Post where
  id : String
  userId : String
  content : Option String
  imageUrl : Option String
  locationId : Option String
  createdAt : Nat
  deriving Repr, DecidableEq

/-- Row of the `videos` table. -/
structure Video where
  id : String
  userId : String
  videoUrl : Option String
  thumbnailUrl : Option String
  locationId : Option String
  createdAt : Nat
  deriving Repr, DecidableEq

/-- Row of the `locations` table. -/
structure Location where
  id : String
  userId : String
  lat : Option String
  lng : Option String
  label : Option String
  createdAt : Nat
  deriving Repr, DecidableEq

/-- Row of the `likes` table: `postId` and `videoId` are both nullable. -/
structure Like where
  id : String
  userId : String
  postId : Option String
  videoId : Option String
  createdAt : Nat
  deriving Repr, DecidableEq

/-- Row of the `comments` table. -/
structure Comment where
  id : String
  userId : String
  postId : Option String
  videoId : Option String
  text : Option String
  createdAt : Nat
  deriving Repr, DecidableEq

/-- Row of the `follows` table. -/
structure Follow where
  id : String
  followerId : String
  followingId : String
  createdAt : Nat
  deriving Repr, DecidableEq

/-- Row of the `saves` table. -/
structure Save where
  id : String
  userId : String
  postId : Option String
  videoId : Option String
  createdAt : Nat
  deriving Repr, DecidableEq

/-- The relational store, plus a fresh-id counter and logical clock used to
produce the server-assigned ids and creation timestamps. -/
structure Store where
  users : List User
  posts : List Post
  videos : List Video
  locations : List Location
  likes : List Like
  comments : List Comment
  follows : List Follow
  saves : List Save
  nextId : Nat
  clock : Nat
  deriving Repr, DecidableEq

/-- Next server-generated opaque id. -/
def freshId (s : Store) : String := Nat.repr s.nextId

/-- Validated payload of `insertPostSchema`: `userId` required, `content` and
`imageUrl` optional (the schema has no location field). -/
structure InsertPost where
  userId : String
  content : Option String
  imageUrl : Option String
  deriving Repr, DecidableEq

/-- Validated payload of `insertCommentSchema`: `userId` and `text` required,
`postId` and `videoId` both optional. -/
structure InsertComment where
  userId : String
  postId : Option String
  videoId : Option String
  text : String
  deriving Repr, DecidableEq

/-- Raw request body for comment creation, before zod validation: every
field may be absent. -/
structure CommentInput where
  userId : Option String
  postId : Option String
  videoId : Option String
  text : Option String
  deriving Repr, DecidableEq

/-- `insertCommentSchema.parse`: succeeds exactly when the required `userId`
and `text` are present; `postId`/`videoId` pass through unchecked. -/
def parseInsertComment (r : CommentInput) : Option InsertComment :=
  match r.userId, r.text with
  | some u, some t => some { userId := u, postId := r.postId, videoId := r.videoId, text := t }
  | _, _ => none

/-- `eq(users.id, uid)` lookup. -/
def findUser (s : Store) (uid : String) : Option User :=
  s.users.find? (fun u => decide (u.id = uid))

/-- Left join of an optional `locationId` against the `locations` table. -/
def findLocation (s : Store) (lid : Option String) : Option Location :=
  match lid with
  | none => none
  | some l => s.locations.find? (fun x => decide (x.id = l))

/-- WHERE clause of the like queries: `userId = u AND postId = p`. -/
def likeMatchesPost (u p : String) (l : Like) : Bool :=
  decide (l.userId = u ∧ l.postId = some p)

/-- WHERE clause of the video-like queries. -/
def likeMatchesVideo (u v : String) (l : Like) : Bool :=
  decide (l.userId = u ∧ l.videoId = some v)

/-- WHERE clause of the save queries. -/
def saveMatchesPost (u p : String) (sv : Save) : Bool :=
  decide (sv.userId = u ∧ sv.postId = some p)

/-- WHERE clause of the video-save queries. -/
def saveMatchesVideo (u v : String) (sv : Save) : Bool :=
  decide (sv.userId = u ∧ sv.videoId = some v)

/-- WHERE clause of the follow queries. -/
def followMatches (u v : String) (f : Follow) : Bool :=
  decide (f.followerId = u ∧ f.followingId = v)

/-- `DatabaseStorage.createPost`: insert the validated payload, id and
timestamp server-assigned; the insert schema carries no location. -/
def createPost (i : InsertPost) (s : Store) : Post × Store :=
  let r : Post := ⟨freshId s, i.userId, i.content, i.imageUrl, none, s.clock⟩
  (r, { s with posts := s.posts ++ [r], nextId := s.nextId + 1, clock := s.clock + 1 })

/-- `DatabaseStorage.createComment`: insert the validated payload verbatim. -/
def createComment (i : InsertComment) (s : Store) : Comment × Store :=
  let r : Comment := ⟨freshId s, i.userId, i.postId, i.videoId, some i.text, s.clock⟩
  (r, { s with comments := s.comments ++ [r], nextId := s.nextId + 1, clock := s.clock + 1 })

/-- `DatabaseStorage.likePost`: select the existing (user, post) like first
and return it unchanged if present, otherwise insert a new row with
`postId` set and `videoId` null. -/
def likePost (u p : String) (s : Store) : Like × Store :=
  match s.likes.find? (likeMatchesPost u p) with
  | some l => (l, s)
  | none =>
    let l : Like := ⟨freshId s, u, some p, none, s.clock⟩
    (l, { s with likes := s.likes ++ [l], nextId := s.nextId + 1, clock := s.clock + 1 })

/-- `DatabaseStorage.likeVideo`: get-or-create, `videoId` set, `postId` null. -/
def likeVideo (u v : String) (s : Store) : Like × Store :=
  match s.likes.find? (likeMatchesVideo u v) with
  | some l => (l, s)
  | none =>
    let l : Like := ⟨freshId s, u, none, some v, s.clock⟩
    (l, { s with likes := s.likes ++ [l], nextId := s.nextId + 1, clock := s.clock + 1 })

/-- `DatabaseStorage.unlikePost`: delete the matching rows and report whether
any row was deleted. -/
def unlikePost (u p : String) (s : Store) : Bool × Store :=
  let removed := s.likes.filter (likeMatchesPost u p)
  (decide (0 < removed.length),
   { s with likes := s.likes.filter (fun l => !(likeMatchesPost u p l)) })

/-- `DatabaseStorage.unlikeVideo`. -/
def unlikeVideo (u v : String) (s : Store) : Bool × Store :=
  let removed := s.likes.filter (likeMatchesVideo u v)
  (decide (0 < removed.length),
   { s with likes := s.likes.filter (fun l => !(likeMatchesVideo u v l)) })

/-- `DatabaseStorage.savePost`: get-or-create, like `likePost`. -/
def savePost (u p : String) (s : Store) : Save × Store :=
  match s.saves.find? (saveMatchesPost u p) with
  | some sv => (sv, s)
  | none =>
    let sv : Save := ⟨freshId s, u, some p, none, s.clock⟩
    (sv, { s with saves := s.saves ++ [sv], nextId := s.nextId + 1, clock := s.clock + 1 })

/-- `DatabaseStorage.saveVideo`. -/
def saveVideo (u v : String) (s : Store) : Save × Store :=
  match s.saves.find? (saveMatchesVideo u v) with
  | some sv => (sv, s)
  | none =>
    let sv : Save := ⟨freshId s, u, none, some v, s.clock⟩
    (sv, { s with saves := s.saves ++ [sv], nextId := s.nextId + 1, clock := s.clock + 1 })

/-- `DatabaseStorage.followUser`: unconditional insert, no existence check
and no self-follow check. -/
def followUser (u v : String) (s : Store) : Follow × Store :=
  let f : Follow := ⟨freshId s, u, v, s.clock⟩
  (f, { s with follows := s.follows ++ [f], nextId := s.nextId + 1, clock := s.clock + 1 })

/-- `DatabaseStorage.unfollowUser`. -/
def unfollowUser (u v : String) (s : Store) : Bool × Store :=
  let removed := s.follows.filter (followMatches u v)
  (decide (0 < removed.length),
   { s with follows := s.follows.filter (fun f => !(followMatches u v f)) })

/-- `DatabaseStorage.isLikedPost`: existence of a matching like row. -/
def isLikedPost (s : Store) (u p : String) : Bool :=
  (s.likes.find? (likeMatchesPost u p)).isSome

/-- `DatabaseStorage.isLikedVideo`. -/
def isLikedVideo (s : Store) (u v : String) : Bool :=
  (s.likes.find? (likeMatchesVideo u v)).isSome

/-- `DatabaseStorage.isSavedPost`. -/
def isSavedPost (s : Store) (u p : String) : Bool :=
  (s.saves.find? (saveMatchesPost u p)).isSome

/-- `DatabaseStorage.isSavedVideo`. -/
def isSavedVideo (s : Store) (u v : String) : Bool :=
  (s.saves.find? (saveMatchesVideo u v)).isSome

/-- `DatabaseStorage.deletePost`: delete rows matching both id and owner,
report whether any row was removed. -/
def deletePost (p u : String) (s : Store) : Bool × Store :=
  let removed := s.posts.filter (fun r => decide (r.id = p ∧ r.userId = u))
  (decide (0 < removed.length),
   { s with posts := s.posts.filter (fun r => !(decide (r.id = p ∧ r.userId = u))) })

/-- `DatabaseStorage.deletePostAdmin`: delete by id alone. -/
def deletePostAdmin (p : String) (s : Store) : Bool × Store :=
  let removed := s.posts.filter (fun r => decide (r.id = p))
  (decide (0 < removed.length),
   { s with posts := s.posts.filter (fun r => !(decide (r.id = p))) })

/-- `DatabaseStorage.deleteVideo`. -/
def deleteVideo (v u : String) (s : Store) : Bool × Store :=
  let removed := s.videos.filter (fun r => decide (r.id = v ∧ r.userId = u))
  (decide (0 < removed.length),
   { s with videos := s.videos.filter (fun r => !(decide (r.id = v ∧ r.userId = u))) })

/-- `DatabaseStorage.deleteVideoAdmin`. -/
def deleteVideoAdmin (v : String) (s : Store) : Bool × Store :=
  let removed := s.videos.filter (fun r => decide (r.id = v))
  (decide (0 < removed.length),
   { s with videos := s.videos.filter (fun r => !(decide (r.id = v))) })

/-- Insertion step of the descending sort used to model `orderBy(desc(col))`. -/
def insDesc (key : α → Nat) (a : α) : List α → List α
  | [] => [a]
  | b :: t => if key b ≤ key a then a :: b :: t else b :: insDesc key a t

/-- `orderBy(desc(col))`: sort a table into non-increasing key order. -/
def sortDescBy (key : α → Nat) : List α → List α
  | [] => []
  | a :: t => insDesc key a (sortDescBy key t)

/-- Enriched post view object.  `user` is the raw left-join result (the
throwing code paths guarantee it is present, `getSavedPosts` does not);
`isSaved` is `none` when the operation never sets the field. -/
structure PostWithDetails where
  post : Post
  user : Option User
  location : Option Location
  likesCount : Nat
  commentsCount : Nat
  isLiked : Bool
  isSaved : Option Bool
  deriving Repr, DecidableEq

/-- Enriched video view object. -/
structure VideoWithDetails where
  video : Video
  user : Option User
  location : Option Location
  likesCount : Nat
  commentsCount : Nat
  isLiked : Bool
  isSaved : Option Bool
  deriving Repr, DecidableEq

/-- `count()` of likes whose `postId` equals the given post. -/
def likesCountPost (s : Store) (p : String) : Nat :=
  (s.likes.filter (fun l => decide (l.postId = some p))).length

/-- `count()` of comments on a post. -/
def commentsCountPost (s : Store) (p : String) : Nat :=
  (s.comments.filter (fun c => decide (c.postId = some p))).length

/-- `count()` of likes on a video. -/
def likesCountVideo (s : Store) (v : String) : Nat :=
  (s.likes.filter (fun l => decide (l.videoId = some v))).length

/-- `count()` of comments on a video. -/
def commentsCountVideo (s : Store) (v : String) : Nat :=
  (s.comments.filter (fun c => decide (c.videoId = some v))).length

/-- Per-row enrichment loop: `Promise.all` over the fetched rows, failing the
whole operation when any row's enrichment throws. -/
def enrichRows (f : α → Except String β) : List α → Except String (List β)
  | [] => Except.ok []
  | a :: t =>
    match f a with
    | Except.error e => Except.error e
    | Except.ok b =>
      match enrichRows f t with
      | Except.error e => Except.error e
      | Except.ok bs => Except.ok (b :: bs)

/-- Whether an `Except` result is a success. -/
def exceptOk : Except ε α → Bool
  | Except.ok _ => true
  | Except.error _ => false

/-- Feed row shape built by `getFeedPosts` for one base post and its owner. -/
def mkFeedPostRow (viewer : String) (s : Store) (p : Post) (u : User) : PostWithDetails :=
  { post := p, user := some u, location := findLocation s p.locationId,
    likesCount := likesCountPost s p.id, commentsCount := commentsCountPost s p.id,
    isLiked := isLikedPost s viewer p.id, isSaved := some (isSavedPost s viewer p.id) }

/-- Feed row shape built by `getFeedVideos`. -/
def mkFeedVideoRow (viewer : String) (s : Store) (v : Video) (u : User) : VideoWithDetails :=
  { video := v, user := some u, location := findLocation s v.locationId,
    likesCount := likesCountVideo s v.id, commentsCount := commentsCountVideo s v.id,
    isLiked := isLikedVideo s viewer v.id, isSaved := some (isSavedVideo s viewer v.id) }

/-- Base rows fetched by `getFeedPosts`: all posts, newest first, limited. -/
def feedPostsBase (n : Nat) (s : Store) : List Post :=
  (sortDescBy Post.createdAt s.posts).take n

/-- Base rows fetched by `getFeedVideos`. -/
def feedVideosBase (n : Nat) (s : Store) : List Video :=
  (sortDescBy Video.createdAt s.videos).take n

/-- `DatabaseStorage.getFeedPosts`: fetch the newest `n` posts of all users,
then enrich each row, throwing "Post has no user" when the owner is gone. -/
def getFeedPosts (viewer : String) (n : Nat) (s : Store) : Except String (List PostWithDetails) :=
  enrichRows (fun p =>
    match findUser s p.userId with
    | none => Except.error "Post has no user"
    | some u => Except.ok (mkFeedPostRow viewer s p u)) (feedPostsBase n s)

/-- `DatabaseStorage.getFeedVideos`. -/
def getFeedVideos (viewer : String) (n : Nat) (s : Store) : Except String (List VideoWithDetails) :=
  enrichRows (fun v =>
    match findUser s v.userId with
    | none => Except.error "Video has no user"
    | some u => Except.ok (mkFeedVideoRow viewer s v u)) (feedVideosBase n s)

/-- Base rows fetched by `getAllPosts`: every post, newest first. -/
def allPostsBase (s : Store) : List Post :=
  sortDescBy Post.createdAt s.posts

/-- Base rows fetched by `getAllVideos`. -/
def allVideosBase (s : Store) : List Video :=
  sortDescBy Video.createdAt s.videos

/-- `DatabaseStorage.getAllPosts`: the admin view forces `isLiked` false and
never sets `isSaved`. -/
def getAllPosts (s : Store) : Except String (List PostWithDetails) :=
  enrichRows (fun p =>
    match findUser s p.userId with
    | none => Except.error "Post has no user"
    | some u =>
      Except.ok { post := p, user := some u, location := findLocation s p.locationId,
                  likesCount := likesCountPost s p.id, commentsCount := commentsCountPost s p.id,
                  isLiked := false, isSaved := none }) (allPostsBase s)

/-- `DatabaseStorage.getAllVideos`. -/
def getAllVideos (s : Store) : Except String (List VideoWithDetails) :=
  enrichRows (fun v =>
    match findUser s v.userId with
    | none => Except.error "Video has no user"
    | some u =>
      Except.ok { video := v, user := some u, location := findLocation s v.locationId,
                  likesCount := likesCountVideo s v.id, commentsCount := commentsCountVideo s v.id,
                  isLiked := false, isSaved := none }) (allVideosBase s)

/-- `DatabaseStorage.getPostWithDetails`: single-row enrichment; returns
nothing when the post or its owning user is missing.  Note the returned
object carries no `isSaved` field. -/
def getPostWithDetails (pid : String) (viewer : Option String) (s : Store) :
    Option PostWithDetails :=
  match s.posts.find? (fun r => decide (r.id = pid)) with
  | none => none
  | some p =>
    match findUser s p.userId with
    | none => none
    | some u =>
      some { post := p, user := some u, location := findLocation s p.locationId,
             likesCount := likesCountPost s pid, commentsCount := commentsCountPost s pid,
             isLiked := match viewer with
                        | none => false
                        | some v => isLikedPost s v pid,
             isSaved := none }

/-- Joined base rows of `getSavedPosts`: the caller's saves with a non-null
`postId`, newest save first, inner-joined to the posts table. -/
def savedPostsBase (u : String) (s : Store) : List (Save × Post) :=
  (sortDescBy Save.createdAt
    (s.saves.filter (fun sv => decide (sv.userId = u ∧ sv.postId.isSome = true)))).filterMap
    (fun sv =>
      match sv.postId with
      | none => none
      | some pid => (s.posts.find? (fun r => decide (r.id = pid))).map (fun p => (sv, p)))

/-- Joined base rows of `getSavedVideos`. -/
def savedVideosBase (u : String) (s : Store) : List (Save × Video) :=
  (sortDescBy Save.createdAt
    (s.saves.filter (fun sv => decide (sv.userId = u ∧ sv.videoId.isSome = true)))).filterMap
    (fun sv =>
      match sv.videoId with
      | none => none
      | some vid => (s.videos.find? (fun r => decide (r.id = vid))).map (fun v => (sv, v)))

/-- `DatabaseStorage.getSavedPosts`: enriches every joined row; the owning
user is passed through from the left join without any missing-user check, so
the operation never fails and never drops a row. -/
def getSavedPosts (u : String) (s : Store) : List PostWithDetails :=
  (savedPostsBase u s).map (fun x =>
    { post := x.2, user := findUser s x.2.userId, location := findLocation s x.2.locationId,
      likesCount := likesCountPost s x.2.id, commentsCount := commentsCountPost s x.2.id,
      isLiked := isLikedPost s u x.2.id, isSaved := none })

/-- `DatabaseStorage.getSavedVideos`. -/
def getSavedVideos (u : String) (s : Store) : List VideoWithDetails :=
  (savedVideosBase u s).map (fun x =>
    { video := x.2, user := findUser s x.2.userId, location := findLocation s x.2.locationId,
      likesCount := likesCountVideo s x.2.id, commentsCount := commentsCountVideo s x.2.id,
      isLiked := isLikedVideo s u x.2.id, isSaved := none })

/-- POST `/api/follows/:userId` route handler: rejects self-follow with 400
before touching storage, otherwise calls `followUser` and answers 200. -/
def followRoute (followerId followingId : String) (s : Store) : Nat × Store :=
  if decide (followerId = followingId) then (400, s)
  else (200, (followUser followerId followingId s).2)

/-- A Like/Comment/Save row references exactly one of a post or a video. -/
def exactlyOneTarget (p v : Option String) : Bool :=
  xor p.isSome v.isSome

/-- Mutual-exclusivity invariant over the likes table. -/
def likesOK (s : Store) : Bool :=
  s.likes.all (fun l => exactlyOneTarget l.postId l.videoId)

/-- Mutual-exclusivity invariant over the saves table. -/
def savesOK (s : Store) : Bool :=
  s.saves.all (fun sv => exactlyOneTarget sv.postId sv.videoId)

/-- Mutual-exclusivity invariant over the comments table. -/
def commentsOK (s : Store) : Bool :=
  s.comments.all (fun c => exactlyOneTarget c.postId c.videoId)

/-- Number of like rows for one (user, post) pair. -/
def likeCount (s : Store) (u p : String) : Nat :=
  (s.likes.filter (likeMatchesPost u p)).length

/-- Number of follow rows for one (follower, followee) pair. -/
def followCount (s : Store) (u v : String) : Nat :=
  (s.follows.filter (followMatches u v)).length

/-- A store with no rows. -/
def emptyStore : Store :=
  { users := [], posts := [], videos := [], locations := [], likes := [],
    comments := [], follows := [], saves := [], nextId := 1, clock := 1 }

/-- C3 scenario, initial state: users A and B exist, nothing else. -/
def scnS0 : Store :=
  { users := [⟨"A", "alice", "a@example.com", none, 0⟩,
              ⟨"B", "bob", "b@example.com", none, 0⟩],
    posts := [], videos := [], locations := [], likes := [],
    comments := [], follows := [], saves := [], nextId := 1, clock := 1 }

/-- C3 scenario: user A creates post P. -/
def scnPost : Post := (createPost ⟨"A", some "hello", none⟩ scnS0).1

/-- C3 scenario state after A's post. -/
def scnS1 : Store := (createPost ⟨"A", some "hello", none⟩ scnS0).2

/-- C3 scenario state after B likes P. -/
def scnS2 : Store := (likePost "B" scnPost.id scnS1).2

/-- C3 scenario state after B saves P. -/
def scnS3 : Store := (savePost "B" scnPost.id scnS2).2

/-- C3 scenario state after B comments "nice!" on P. -/
def scnS4 : Store := (createComment ⟨"B", some scnPost.id, none, "nice!"⟩ scnS3).2

/-- Concrete store for the C4 witness: two users, two posts, one video. -/
def w4Store : Store :=
  { users := [⟨"u1", "ua", "ua@example.com", none, 0⟩,
              ⟨"u2", "ub", "ub@example.com", none, 0⟩],
    posts := [⟨"p1", "u1", some "one", none, none, 5⟩,
              ⟨"p2", "u2", some "two", none, none, 9⟩],
    videos := [⟨"v1", "u2", some "url", none, none, 3⟩],
    locations := [], likes := [], comments := [], follows := [], saves := [],
    nextId := 10, clock := 20 }

/-- Feed over `w4Store` as computed by `getFeedPosts`. -/
def w4FeedPosts : List PostWithDetails := ((getFeedPosts "u1" 5 w4Store).toOption).getD []

/-- Video feed over `w4Store` as computed by `getFeedVideos`. -/
def w4FeedVideos : List VideoWithDetails := ((getFeedVideos "u1" 5 w4Store).toOption).getD []

/-- Concrete store for the C5 witness: one post owned by "u1". -/
def w5Store : Store :=
  { users := [], posts := [⟨"p1", "u1", some "hi", none, none, 1⟩],
    videos := [], locations := [], likes := [], comments := [], follows := [],
    saves := [], nextId := 2, clock := 2 }

/-- Concrete store for C8: post "p1" is owned by "ghost", a user id that is
missing from the users table, and "B" has saved that post. -/
def cgStore : Store :=
  { users := [⟨"B", "bob", "b@example.com", none, 0⟩],
    posts := [⟨"p1", "ghost", some "orphan", none, none, 1⟩],
    videos := [], locations := [], likes := [], comments := [], follows := [],
    saves := [⟨"s1", "B", some "p1", none, 2⟩], nextId := 5, clock := 5 }

/-! ### Helper lemmas -/

theorem filter_not_filter (p : α → Bool) (l : List α) :
    (l.filter (fun a => !(p a))).filter p = [] := by
  induction l with
  | nil => rfl
  | cons a t ih =>
    cases hpa : p a with
    | true => simp [List.filter_cons, hpa, ih]
    | false => simp [List.filter_cons, hpa, ih]

theorem insDesc_perm (key : α → Nat) (a : α) (l : List α) :
    List.Perm (insDesc key a l) (a :: l) := by
  induction l with
  | nil => simp [insDesc]
  | cons b t ih =>
    simp only [insDesc]
    by_cases h : key b ≤ key a
    · simp [h]
    · simp only [h, if_false]
      exact (ih.cons b).trans (List.Perm.swap a b t)

theorem sortDescBy_perm (key : α → Nat) (l : List α) :
    List.Perm (sortDescBy key l) l := by
  induction l with
  | nil => simp [sortDescBy]
  | cons a t ih =>
    simp only [sortDescBy]
    exact (insDesc_perm key a (sortDescBy key t)).trans (ih.cons a)

theorem insDesc_pairwise (key : α → Nat) (a : α) (l : List α)
    (h : l.Pairwise (fun x y => key y ≤ key x)) :
    (insDesc key a l).Pairwise (fun x y => key y ≤ key x) := by
  induction l with
  | nil => simp [insDesc]
  | cons b t ih =>
    simp only [insDesc]
    rcases List.pairwise_cons.mp h with ⟨hb, ht⟩
    by_cases hle : key b ≤ key a
    · simp only [hle, if_true]
      refine List.pairwise_cons.mpr ⟨?_, h⟩
      intro x hx
      rcases List.mem_cons.mp hx with hx | hx
      · subst hx; exact hle
      · exact le_trans (hb x hx) hle
    · simp only [hle, if_false]
      refine List.pairwise_cons.mpr ⟨?_, ih ht⟩
      intro x hx
      have hx2 : x ∈ a :: t := (insDesc_perm key a t).mem_iff.mp hx
      rcases List.mem_cons.mp hx2 with hx2 | hx2
      · subst hx2
        exact le_of_lt (lt_of_not_le hle)
      · exact hb x hx2

theorem sortDescBy_pairwise (key : α → Nat) (l : List α) :
    (sortDescBy key l).Pairwise (fun x y => key y ≤ key x) := by
  induction l with
  | nil => simp [sortDescBy]
  | cons a t ih =>
    simp only [sortDescBy]
    exact insDesc_pairwise key a (sortDescBy key t) ih

theorem enrichRows_map (f : α → Except String β) (g : β → α)
    (hg : ∀ a b, f a = Except.ok b → g b = a) :
    ∀ (l : List α) (r : List β), enrichRows f l = Except.ok r → r.map g = l := by
  intro l
  induction l with
  | nil =>
    intro r h
    simp only [enrichRows] at h
    cases h
    rfl
  | cons a t ih =>
    intro r h
    simp only [enrichRows] at h
    cases hfa : f a with
    | error e => rw [hfa] at h; cases h
    | ok b =>
      rw [hfa] at h
      cases ht : enrichRows f t with
      | error e => rw [ht] at h; cases h
      | ok bs =>
        rw [ht] at h
        cases h
        simp only [List.map_cons]
        rw [hg a b hfa, ih bs ht]

theorem enrichRows_not_ok (f : α → Except String β) (a : α) :
    ∀ (l : List α), a ∈ l → exceptOk (f a) = false →
      exceptOk (enrichRows f l) = false := by
  intro l
  induction l with
  | nil => intro h; cases h
  | cons b t ih =>
    intro hmem hfa
    simp only [enrichRows]
    rcases List.mem_cons.mp hmem with hmem | hmem
    · subst hmem
      cases hfb : f a with
      | error e => simp [exceptOk]
      | ok x => rw [hfb] at hfa; simp [exceptOk] at hfa
    · cases hfb : f b with
      | error e => simp [exceptOk]
      | ok x =>
        cases ht : enrichRows f t with
        | error e => simp [exceptOk]
        | ok bs =>
          have := ih hmem hfa
          rw [ht] at this
          simp [exceptOk] at this

theorem filter_of_none (p : α → Bool) (l : List α) (h : ∀ a ∈ l, ¬ p a = true) :
    l.filter (fun a => !(p a)) = l := by
  induction l with
  | nil => rfl
  | cons a t ih =>
    have ha : p a = false := by
      have := h a (List.mem_cons_self a t)
      exact Bool.eq_false_iff.mpr this
    simp only [List.filter_cons, ha, Bool.not_false, if_true]
    rw [ih (fun x hx => h x (List.mem_cons_of_mem a hx))]

/-- Generic shape of the feed contracts: a feed fetches the newest `n` base
rows, enriches them in order, and the enriched list projects back onto the
base rows. -/
theorem feed_contract (key : α → Nat) (rows : List α) (n : Nat)
    (f : α → Except String β) (g : β → α)
    (hg : ∀ a b, f a = Except.ok b → g b = a) (r : List β)
    (h : enrichRows f ((sortDescBy key rows).take n) = Except.ok r) :
    r.length ≤ n ∧
    r.Pairwise (fun x y => key (g y) ≤ key (g x)) ∧
    (∀ x ∈ r, g x ∈ rows) ∧
    (rows.length ≤ n → ∀ q ∈ rows, ∃ x ∈ r, g x = q) := by
  have hmap : r.map g = (sortDescBy key rows).take n := enrichRows_map f g hg _ r h
  have hperm : List.Perm (sortDescBy key rows) rows := sortDescBy_perm key rows
  refine ⟨?_, ?_, ?_, ?_⟩
  · have := congrArg List.length hmap
    simp only [List.length_map, List.length_take] at this
    omega
  · have hp : ((sortDescBy key rows).take n).Pairwise (fun x y => key y ≤ key x) :=
      List.Pairwise.sublist (List.take_sublist n _) (sortDescBy_pairwise key rows)
    rw [← hmap] at hp
    exact List.pairwise_map.mp hp
  · intro x hx
    have : g x ∈ r.map g := List.mem_map_of_mem g hx
    rw [hmap] at this
    exact hperm.mem_iff.mp (List.take_subset n _ this)
  · intro hlen q hq
    have hslen : (sortDescBy key rows).length ≤ n := by
      rw [hperm.length_eq]; exact hlen
    rw [List.take_of_length_le hslen] at hmap
    have : q ∈ r.map g := by
      rw [hmap]; exact hperm.mem_iff.mpr hq
    rcases List.mem_map.mp this with ⟨x, hx, hgx⟩
    exact ⟨x, hx, hgx⟩

/-! ### Claim theorems -/

/-- C1: for every user `u` and post `p`, `likePost u p` followed by a second
`likePost u p` leaves exactly one Like row for the pair (the second call
returns the row of the first call and leaves the store unchanged), and
`unlikePost u p` in a state with no matching Like row returns `false` as a
no-op success, leaving the store unchanged.  The hypothesis is the spec's
uniqueness invariant for the starting state: at most one Like per
(user, target). -/
theorem claim_C1_like_idempotent_unlike_noop (u p : String) (s : Store)
    (h : likeCount s u p ≤ 1) :
    ((likePost u p ((likePost u p s).2)).1 = (likePost u p s).1 ∧
     (likePost u p ((likePost u p s).2)).2 = (likePost u p s).2 ∧
     likeCount ((likePost u p s).2) u p = 1) ∧
    (likeCount s u p = 0 → unlikePost u p s = (false, s)) := by
  constructor
  · cases hf : s.likes.find? (likeMatchesPost u p) with
    | some l =>
      have h1 : likePost u p s = (l, s) := by simp [likePost, hf]
      have hcount : likeCount s u p = 1 := by
        have hmem : l ∈ s.likes := List.mem_of_find?_eq_some hf
        have hpred : likeMatchesPost u p l = true := List.find?_some hf
        have hpos : 0 < likeCount s u p :=
          List.length_pos_iff_exists_mem.mpr ⟨l, List.mem_filter.mpr ⟨hmem, hpred⟩⟩
        omega
      rw [h1]
      exact ⟨by rw [h1], by rw [h1], hcount⟩
    | none =>
      have h1 : likePost u p s =
          (⟨freshId s, u, some p, none, s.clock⟩,
           { s with likes := s.likes ++ [⟨freshId s, u, some p, none, s.clock⟩],
                    nextId := s.nextId + 1, clock := s.clock + 1 }) := by
        simp [likePost, hf]
      have hnil : s.likes.filter (likeMatchesPost u p) = [] :=
        List.filter_eq_nil_iff.mpr (List.find?_eq_none.mp hf)
      have hpred : likeMatchesPost u p ⟨freshId s, u, some p, none, s.clock⟩ = true := by
        simp [likeMatchesPost]
      have hfind2 : (s.likes ++ [(⟨freshId s, u, some p, none, s.clock⟩ : Like)]).find?
          (likeMatchesPost u p) = some ⟨freshId s, u, some p, none, s.clock⟩ := by
        rw [List.find?_append, hf]
        simp [List.find?_cons, hpred]
      rw [h1]
      refine ⟨?_, ?_, ?_⟩
      · simp only [likePost, hfind2]
      · simp only [likePost, hfind2]
      · simp only [likeCount, List.filter_append, hnil, List.filter_cons, hpred]
        simp
  · intro h0
    have hnil : s.likes.filter (likeMatchesPost u p) = [] := by
      have : (s.likes.filter (likeMatchesPost u p)).length = 0 := h0
      exact List.length_eq_zero.mp this
    have hall : ∀ a ∈ s.likes, ¬ likeMatchesPost u p a = true :=
      List.filter_eq_nil_iff.mp hnil
    have hkeep : s.likes.filter (fun l => !(likeMatchesPost u p l)) = s.likes :=
      filter_of_none _ _ hall
    simp [unlikePost, hnil, hkeep]

/-- C1 witness: in the empty store, liking a concrete pair twice leaves one
row and returns the same row, and unliking with no like present is a no-op
returning `false`. -/
theorem claim_C1_witness :
    (((likePost "u1" "p1" ((likePost "u1" "p1" emptyStore).2)).1 =
        (likePost "u1" "p1" emptyStore).1 ∧
      (likePost "u1" "p1" ((likePost "u1" "p1" emptyStore).2)).2 =
        (likePost "u1" "p1" emptyStore).2 ∧
      likeCount ((likePost "u1" "p1" emptyStore).2) "u1" "p1" = 1) ∧
     (likeCount emptyStore "u1" "p1" = 0 →
        unlikePost "u1" "p1" emptyStore = (false, emptyStore))) ∧
    unlikePost "u1" "p1" emptyStore = (false, emptyStore) := by
  have h := claim_C1_like_idempotent_unlike_noop "u1" "p1" emptyStore (by decide)
  exact ⟨h, h.2 (by decide)⟩

/-- C2 counterexample: calling `followUser` twice for the same concrete pair
leaves two Follow rows with the same follower and followee, so the
at-most-one-Follow-per-pair invariant is not preserved. -/
theorem claim_C2_counterexample :
    followCount ((followUser "a" "b" ((followUser "a" "b" emptyStore).2)).2) "a" "b" = 2 ∧
    ¬ followCount ((followUser "a" "b" ((followUser "a" "b" emptyStore).2)).2) "a" "b" ≤ 1 := by
  constructor
  · decide
  · decide

/-- C2 amended: `followUser` inserts unconditionally, so each invocation
adds exactly one more Follow row for its pair; in particular a second
invocation for the same pair creates a duplicate and the uniqueness
invariant is not preserved by the storage layer. -/
theorem claim_C2_followUser_always_inserts (u v : String) (s : Store) :
    (followUser u v s).2.follows = s.follows ++ [(followUser u v s).1] ∧
    followCount ((followUser u v s).2) u v = followCount s u v + 1 := by
  constructor
  · rfl
  · have hpred : followMatches u v ⟨freshId s, u, v, s.clock⟩ = true := by
      simp [followMatches]
    simp [followUser, followCount, List.filter_append, List.filter_cons, hpred]

/-- C6: when the authenticated caller equals the `:userId` path parameter,
the POST `/api/follows/:userId` handler answers 400 and the store — in
particular the follows table — is unchanged; `followUser` is never run. -/
theorem claim_C6_self_follow_rejected (u : String) (s : Store) :
    followRoute u u s = (400, s) ∧ (followRoute u u s).2.follows = s.follows := by
  have h : followRoute u u s = (400, s) := by simp [followRoute]
  exact ⟨h, by rw [h]⟩

/-- C9: the four deletion operations only touch their own table; every
Like, Comment, Save and Follow row (and the other tables) survive the
deletion — no cascade is performed. -/
theorem claim_C9_delete_frame (pid vid uid : String) (s : Store) :
    ((deletePost pid uid s).2.users = s.users ∧
     (deletePost pid uid s).2.videos = s.videos ∧
     (deletePost pid uid s).2.locations = s.locations ∧
     (deletePost pid uid s).2.likes = s.likes ∧
     (deletePost pid uid s).2.comments = s.comments ∧
     (deletePost pid uid s).2.follows = s.follows ∧
     (deletePost pid uid s).2.saves = s.saves) ∧
    ((deletePostAdmin pid s).2.users = s.users ∧
     (deletePostAdmin pid s).2.videos = s.videos ∧
     (deletePostAdmin pid s).2.locations = s.locations ∧
     (deletePostAdmin pid s).2.likes = s.likes ∧
     (deletePostAdmin pid s).2.comments = s.comments ∧
     (deletePostAdmin pid s).2.follows = s.follows ∧
     (deletePostAdmin pid s).2.saves = s.saves) ∧
    ((deleteVideo vid uid s).2.users = s.users ∧
     (deleteVideo vid uid s).2.posts = s.posts ∧
     (deleteVideo vid uid s).2.locations = s.locations ∧
     (deleteVideo vid uid s).2.likes = s.likes ∧
     (deleteVideo vid uid s).2.comments = s.comments ∧
     (deleteVideo vid uid s).2.follows = s.follows ∧
     (deleteVideo vid uid s).2.saves = s.saves) ∧
    ((deleteVideoAdmin vid s).2.users = s.users ∧
     (deleteVideoAdmin vid s).2.posts = s.posts ∧
     (deleteVideoAdmin vid s).2.locations = s.locations ∧
     (deleteVideoAdmin vid s).2.likes = s.likes ∧
     (deleteVideoAdmin vid s).2.comments = s.comments ∧
     (deleteVideoAdmin vid s).2.follows = s.follows ∧
     (deleteVideoAdmin vid s).2.saves = s.saves) :=
  ⟨⟨rfl, rfl, rfl, rfl, rfl, rfl, rfl⟩,
   ⟨rfl, rfl, rfl, rfl, rfl, rfl, rfl⟩,
   ⟨rfl, rfl, rfl, rfl, rfl, rfl, rfl⟩,
   ⟨rfl, rfl, rfl, rfl, rfl, rfl, rfl⟩⟩

/-- C10: the storage-layer `followUser` performs no self-follow check: for
every user `u` it inserts a Follow row whose follower and followee are both
`u`; the self-follow rule lives only in the route handler, which answers
400 without reaching storage. -/
theorem claim_C10_storage_self_follow_unchecked (u : String) (s : Store) :
    (followUser u u s).1.followerId = u ∧
    (followUser u u s).1.followingId = u ∧
    (followUser u u s).2.follows = s.follows ++ [(followUser u u s).1] ∧
    (followRoute u u s).1 = 400 := by
  refine ⟨rfl, rfl, rfl, ?_⟩
  simp [followRoute]

/-- C4: whenever `getFeedPosts viewer n` and `getFeedVideos viewer n`
succeed, each returns at most `n` items, ordered by non-increasing creation
time, drawn from the posts/videos of all users: every item's base row is in
the store, and when the store holds no more than `n` rows every row of
every user appears, with no social-graph filtering. -/
theorem claim_C4_feed_sorted_limited (viewer : String) (n : Nat) (s : Store)
    (l : List PostWithDetails) (l2 : List VideoWithDetails)
    (hp : getFeedPosts viewer n s = Except.ok l)
    (hv : getFeedVideos viewer n s = Except.ok l2) :
    (l.length ≤ n ∧
     l.Pairwise (fun x y => y.post.createdAt ≤ x.post.createdAt) ∧
     (∀ x ∈ l, x.post ∈ s.posts) ∧
     (s.posts.length ≤ n → ∀ q ∈ s.posts, ∃ x ∈ l, x.post = q)) ∧
    (l2.length ≤ n ∧
     l2.Pairwise (fun x y => y.video.createdAt ≤ x.video.createdAt) ∧
     (∀ x ∈ l2, x.video ∈ s.videos) ∧
     (s.videos.length ≤ n → ∀ q ∈ s.videos, ∃ x ∈ l2, x.video = q)) := by
  constructor
  · refine feed_contract Post.createdAt s.posts n _ PostWithDetails.post ?_ l hp
    intro a b hab
    cases hfu : findUser s a.userId with
    | none =>
      rw [hfu] at hab
      exact absurd hab (by simp)
    | some u =>
      rw [hfu] at hab
      simp only [Except.ok.injEq] at hab
      rw [← hab]
      rfl
  · refine feed_contract Video.createdAt s.videos n _ VideoWithDetails.video ?_ l2 hv
    intro a b hab
    cases hfu : findUser s a.userId with
    | none =>
      rw [hfu] at hab
      exact absurd hab (by simp)
    | some u =>
      rw [hfu] at hab
      simp only [Except.ok.injEq] at hab
      rw [← hab]
      rfl

/-- C4 witness: on a concrete store of two posts and one video the feeds
succeed and satisfy the limit, ordering and coverage properties. -/
theorem claim_C4_witness :
    (w4FeedPosts.length ≤ 5 ∧
     w4FeedPosts.Pairwise (fun x y => y.post.createdAt ≤ x.post.createdAt) ∧
     (∀ x ∈ w4FeedPosts, x.post ∈ w4Store.posts) ∧
     (w4Store.posts.length ≤ 5 → ∀ q ∈ w4Store.posts, ∃ x ∈ w4FeedPosts, x.post = q)) ∧
    (w4FeedVideos.length ≤ 5 ∧
     w4FeedVideos.Pairwise (fun x y => y.video.createdAt ≤ x.video.createdAt) ∧
     (∀ x ∈ w4FeedVideos, x.video ∈ w4Store.videos) ∧
     (w4Store.videos.length ≤ 5 → ∀ q ∈ w4Store.videos, ∃ x ∈ w4FeedVideos, x.video = q)) :=
  claim_C4_feed_sorted_limited "u1" 5 w4Store w4FeedPosts w4FeedVideos (by rfl) (by rfl)

/-- C5: under primary-key discipline (every post row with id `p` is owned by
`owner`) and for a caller `v` distinct from the owner: the owner-scoped
delete succeeds exactly when a post with id `p` owned by `owner` exists, a
second owner-scoped delete reports `false`, the non-owner delete reports
`false` and leaves the store untouched, and the admin delete succeeds by id
alone, regardless of ownership. -/
theorem claim_C5_delete_owner_scoped (p owner v : String) (s : Store)
    (hvo : v ≠ owner)
    (hall : ∀ r ∈ s.posts, r.id = p → r.userId = owner) :
    ((deletePost p owner s).1 = true ↔ ∃ r ∈ s.posts, r.id = p ∧ r.userId = owner) ∧
    (deletePost p owner ((deletePost p owner s).2)).1 = false ∧
    deletePost p v s = (false, s) ∧
    ((deletePostAdmin p s).1 = true ↔ ∃ r ∈ s.posts, r.id = p) := by
  refine ⟨?_, ?_, ?_, ?_⟩
  · simp [deletePost, List.length_pos_iff_exists_mem, List.mem_filter]
  · simp [deletePost, filter_not_filter]
  · have hnone : ∀ r ∈ s.posts, ¬ ((fun r => decide (r.id = p ∧ r.userId = v)) r = true) := by
      intro r hr hcontra
      simp only [decide_eq_true_eq] at hcontra
      exact hvo (hcontra.2 ▸ (hall r hr hcontra.1))
    have hrem : s.posts.filter (fun r => decide (r.id = p ∧ r.userId = v)) = [] :=
      List.filter_eq_nil_iff.mpr hnone
    have hkeep : s.posts.filter (fun r => !(decide (r.id = p ∧ r.userId = v))) = s.posts :=
      filter_of_none _ _ hnone
    show (decide (0 < (s.posts.filter (fun r => decide (r.id = p ∧ r.userId = v))).length),
          { s with posts := s.posts.filter (fun r => !(decide (r.id = p ∧ r.userId = v))) })
         = ((false : Bool), s)
    rw [hrem, hkeep]
    rfl
  · simp [deletePostAdmin, List.length_pos_iff_exists_mem, List.mem_filter]

/-- C5 witness: concrete store holding one post "p1" owned by "u1"; the
owner delete succeeds once, the second and the non-owner delete fail, the
admin delete ignores ownership. -/
theorem claim_C5_witness :
    ((deletePost "p1" "u1" w5Store).1 = true ↔
       ∃ r ∈ w5Store.posts, r.id = "p1" ∧ r.userId = "u1") ∧
    (deletePost "p1" "u1" ((deletePost "p1" "u1" w5Store).2)).1 = false ∧
    deletePost "p1" "u2" w5Store = (false, w5Store) ∧
    ((deletePostAdmin "p1" w5Store).1 = true ↔ ∃ r ∈ w5Store.posts, r.id = "p1") :=
  claim_C5_delete_owner_scoped "p1" "u1" "u2" w5Store (by decide) (by decide)

/-- Appending one element that satisfies a Boolean predicate preserves
`List.all`. -/
theorem all_append_singleton (f : α → Bool) (l : List α) (a : α)
    (hl : l.all f = true) (ha : f a = true) : (l ++ [a]).all f = true := by
  simp [List.all_append, hl, ha]

/-- C3 counterexample: in the scenario state (A posted P; B liked, saved and
commented on P) the claim that `getPostWithDetails(P, viewerId=B)` returns
`isSaved = true` is false — the operation never computes `isSaved`, so the
field is absent (`none`), even though the store does record B's save. -/
theorem claim_C3_counterexample :
    (getPostWithDetails scnPost.id (some "B") scnS4).map PostWithDetails.isSaved = some none ∧
    isSavedPost scnS4 "B" scnPost.id = true ∧
    (getPostWithDetails scnPost.id (some "B") scnS4).map PostWithDetails.isSaved ≠
      some (some true) := by
  refine ⟨by decide, by decide, by decide⟩

/-- C3 amended: in the scenario state, `getPostWithDetails(P, viewerId=A)`
reports likesCount 1, commentsCount 1 and isLiked false, and
`getPostWithDetails(P, viewerId=B)` reports isLiked true; the single-item
view never sets `isSaved` (the field is absent), although the store itself
records that B saved P. -/
theorem claim_C3_scenario_amended :
    (getPostWithDetails scnPost.id (some "A") scnS4).map PostWithDetails.likesCount = some 1 ∧
    (getPostWithDetails scnPost.id (some "A") scnS4).map PostWithDetails.commentsCount = some 1 ∧
    (getPostWithDetails scnPost.id (some "A") scnS4).map PostWithDetails.isLiked = some false ∧
    (getPostWithDetails scnPost.id (some "B") scnS4).map PostWithDetails.isLiked = some true ∧
    (getPostWithDetails scnPost.id (some "B") scnS4).map PostWithDetails.isSaved = some none ∧
    isSavedPost scnS4 "B" scnPost.id = true := by
  refine ⟨by decide, by decide, by decide, by decide, by decide, by decide⟩

/-- C7 counterexample: the comment validation schema accepts a body with
neither `postId` nor `videoId`, and `createComment` on that accepted input
breaks the exactly-one-target invariant (which held in the empty store). -/
theorem claim_C7_counterexample :
    parseInsertComment ⟨some "u1", none, none, some "nice"⟩ =
      some ⟨"u1", none, none, "nice"⟩ ∧
    commentsOK emptyStore = true ∧
    commentsOK ((createComment ⟨"u1", none, none, "nice"⟩ emptyStore).2) = false := by
  refine ⟨by decide, by decide, by decide⟩

/-- C7 amended: `likePost`, `likeVideo`, `savePost` and `saveVideo` always
create rows with exactly one of `postId`/`videoId` set and so preserve the
mutual-exclusivity invariant; `createComment` copies the input's references
verbatim and its validation schema leaves both optional, so it preserves
the invariant only when the input itself has exactly one target set. -/
theorem claim_C7_target_exclusivity_amended (u p v : String) (s : Store)
    (ic : InsertComment)
    (hic : exactlyOneTarget ic.postId ic.videoId = true) :
    (likesOK s = true → likesOK ((likePost u p s).2) = true) ∧
    (likesOK s = true → likesOK ((likeVideo u v s).2) = true) ∧
    (savesOK s = true → savesOK ((savePost u p s).2) = true) ∧
    (savesOK s = true → savesOK ((saveVideo u v s).2) = true) ∧
    (commentsOK s = true → commentsOK ((createComment ic s).2) = true) := by
  refine ⟨?_, ?_, ?_, ?_, ?_⟩
  · intro hs
    cases hf : s.likes.find? (likeMatchesPost u p) with
    | some l =>
      have h2 : (likePost u p s).2 = s := by simp [likePost, hf]
      rw [h2]; exact hs
    | none =>
      have h2 : (likePost u p s).2.likes =
          s.likes ++ [⟨freshId s, u, some p, none, s.clock⟩] := by simp [likePost, hf]
      simp only [likesOK] at hs ⊢
      rw [h2]
      exact all_append_singleton _ _ _ hs rfl
  · intro hs
    cases hf : s.likes.find? (likeMatchesVideo u v) with
    | some l =>
      have h2 : (likeVideo u v s).2 = s := by simp [likeVideo, hf]
      rw [h2]; exact hs
    | none =>
      have h2 : (likeVideo u v s).2.likes =
          s.likes ++ [⟨freshId s, u, none, some v, s.clock⟩] := by simp [likeVideo, hf]
      simp only [likesOK] at hs ⊢
      rw [h2]
      exact all_append_singleton _ _ _ hs rfl
  · intro hs
    cases hf : s.saves.find? (saveMatchesPost u p) with
    | some sv =>
      have h2 : (savePost u p s).2 = s := by simp [savePost, hf]
      rw [h2]; exact hs
    | none =>
      have h2 : (savePost u p s).2.saves =
          s.saves ++ [⟨freshId s, u, some p, none, s.clock⟩] := by simp [savePost, hf]
      simp only [savesOK] at hs ⊢
      rw [h2]
      exact all_append_singleton _ _ _ hs rfl
  · intro hs
    cases hf : s.saves.find? (saveMatchesVideo u v) with
    | some sv =>
      have h2 : (saveVideo u v s).2 = s := by simp [saveVideo, hf]
      rw [h2]; exact hs
    | none =>
      have h2 : (saveVideo u v s).2.saves =
          s.saves ++ [⟨freshId s, u, none, some v, s.clock⟩] := by simp [saveVideo, hf]
      simp only [savesOK] at hs ⊢
      rw [h2]
      exact all_append_singleton _ _ _ hs rfl
  · intro hs
    have h2 : (createComment ic s).2.comments =
        s.comments ++ [⟨freshId s, ic.userId, ic.postId, ic.videoId, some ic.text, s.clock⟩] := rfl
    simp only [commentsOK] at hs ⊢
    rw [h2]
    exact all_append_singleton _ _ _ hs hic

/-- C7 witness: concrete like, save and comment creations (the comment
targeting exactly a post) preserve the exclusivity invariant from the
empty store. -/
theorem claim_C7_witness :
    likesOK ((likePost "a" "b" emptyStore).2) = true ∧
    savesOK ((savePost "a" "b" emptyStore).2) = true ∧
    commentsOK ((createComment ⟨"c", some "d", none, "t"⟩ emptyStore).2) = true := by
  have h := claim_C7_target_exclusivity_amended "a" "b" "x" emptyStore
    ⟨"c", some "d", none, "t"⟩ (by decide)
  exact ⟨h.1 (by decide), h.2.2.1 (by decide), h.2.2.2.2 (by decide)⟩

/-- C8 counterexample: `getSavedPosts` does not fail when a fetched row's
owning user is missing — on a store where "B" saved a post owned by the
nonexistent user "ghost" it returns the row, with the absent user passed
through, instead of erroring. -/
theorem claim_C8_counterexample :
    findUser cgStore "ghost" = none ∧
    (getSavedPosts "B" cgStore).length = 1 ∧
    (getSavedPosts "B" cgStore).map PostWithDetails.user = [none] := by
  refine ⟨by decide, by decide, by decide⟩

/-- C8 amended: `getFeedPosts`, `getFeedVideos`, `getAllPosts` and
`getAllVideos` fail with an error whenever any fetched base row's owning
user is missing; `getSavedPosts`/`getSavedVideos`, however, never fail and
never skip a joined row — they return one view object per joined save,
passing a missing owner through as an absent user. -/
theorem claim_C8_missing_owner_fails (viewer : String) (n : Nat) (s : Store) (u : String) :
    ((∃ q ∈ feedPostsBase n s, findUser s q.userId = none) →
       exceptOk (getFeedPosts viewer n s) = false) ∧
    ((∃ q ∈ feedVideosBase n s, findUser s q.userId = none) →
       exceptOk (getFeedVideos viewer n s) = false) ∧
    ((∃ q ∈ allPostsBase s, findUser s q.userId = none) →
       exceptOk (getAllPosts s) = false) ∧
    ((∃ q ∈ allVideosBase s, findUser s q.userId = none) →
       exceptOk (getAllVideos s) = false) ∧
    (getSavedPosts u s).length = (savedPostsBase u s).length ∧
    (getSavedVideos u s).length = (savedVideosBase u s).length := by
  refine ⟨?_, ?_, ?_, ?_, ?_, ?_⟩
  · rintro ⟨q, hq, hfu⟩
    unfold getFeedPosts
    exact enrichRows_not_ok _ q _ hq (by simp [hfu, exceptOk])
  · rintro ⟨q, hq, hfu⟩
    unfold getFeedVideos
    exact enrichRows_not_ok _ q _ hq (by simp [hfu, exceptOk])
  · rintro ⟨q, hq, hfu⟩
    unfold getAllPosts
    exact enrichRows_not_ok _ q _ hq (by simp [hfu, exceptOk])
  · rintro ⟨q, hq, hfu⟩
    unfold getAllVideos
    exact enrichRows_not_ok _ q _ hq (by simp [hfu, exceptOk])
  · simp [getSavedPosts]
  · simp [getSavedVideos]

/-- C8 witness: on the concrete store with the orphaned post, the post feed
fails (its owner is missing) while `getSavedPosts` still returns one view
object per joined save. -/
theorem claim_C8_witness :
    exceptOk (getFeedPosts "B" 5 cgStore) = false ∧
    (getSavedPosts "B" cgStore).length = (savedPostsBase "B" cgStore).length := by
  have h := claim_C8_missing_owner_fails "B" 5 cgStore "B"
  exact ⟨h.1 (by decide), h.2.2.2.2.1⟩
